import Mathlib

/-!
Verification of the Mely "Visio Familles" desktop widget (src/api_cloud.py).

The file shallowly embeds the data model (residents, familles, rendez-vous,
disponibilites) and the staff operations of the widget:
the appointment status transitions (accept_demande, refuse_demande,
cancel_rdv, finish_rdv, start_call, delete_rdv), the registration actions
(validate_inscription, refuse_inscription) with their email side effects,
the resident soft-delete and hard-delete paths, the availability full-replace
sync, the cloud soft-delete call, and the UTC-to-local datetime conversion.
Theorems below settle the claims of the specification against these embeddings.
-/

/-- Appointment status values used by the widget (`statut` column). -/
inductive Statut
  | enAttente   -- "En attente"  (Pending)
  | planifie    -- "Planifié"    (Scheduled)
  | confirme    -- "Confirmé"    (Confirmed)
  | refuse      -- "Refusé"      (Rejected)
  | annule      -- "Annulé"      (Cancelled)
  | enCours     -- "En cours"    (InProgress)
  | termine     -- "Terminé"     (Completed)
deriving DecidableEq, Repr

/-- Wall-clock date+time of an appointment (`date_rdv`), second precision,
as consumed by `strftime("%Y%m%d%H%M%S")`. -/
structure DateRdv where
  year : Nat
  month : Nat
  day : Nat
  hour : Nat
  minute : Nat
  second : Nat
deriving DecidableEq, Repr

def pad2 (n : Nat) : String :=
  if n < 10 then "0" ++ toString n else toString n

def pad4 (n : Nat) : String :=
  if n < 10 then "000" ++ toString n
  else if n < 100 then "00" ++ toString n
  else if n < 1000 then "0" ++ toString n
  else toString n

/-- Python `d.strftime("%Y%m%d%H%M%S")` on a `DateRdv`. -/
def strftimeYmdHMS (d : DateRdv) : String :=
  pad4 d.year ++ pad2 d.month ++ pad2 d.day ++ pad2 d.hour ++ pad2 d.minute ++ pad2 d.second

/-- A `rendez_vous` row as manipulated by the widget. -/
structure RendezVous where
  id : Nat
  resident_id : Nat
  famille_id : Nat
  date_rdv : DateRdv
  duree_minutes : Nat
  statut : Statut
  lien_jitsi : Option String
deriving DecidableEq, Repr

/-- Python truthiness of the `lien_jitsi` column: `None` and `""` are falsy. -/
def truthy : Option String → Bool
  | none => false
  | some s => s ≠ ""

/-- The call-room URL built at approval time:
`f"https://meet.jit.si/MelyEHPAD-{demande_db.resident_id}-{timestamp}"`
with `timestamp = demande_db.date_rdv.strftime("%Y%m%d%H%M%S")`. -/
def jitsiLink (rid : Nat) (d : DateRdv) : String :=
  "https://meet.jit.si/MelyEHPAD-" ++ toString rid ++ "-" ++ strftimeYmdHMS d

/-- Error taxonomy of the specification (section 7). -/
inductive ErrorKind
  | invalidInput
  | notFound
  | invalidTransition
  | missingResource
  | remoteUnavailable
  | storeError
deriving DecidableEq, Repr

/-- Embedding of `accept_demande` (found row, staff confirmed): sets `statut = "Planifié"`
unconditionally, then generates the Jitsi link only when the current link is
falsy (`if not demande_db.lien_jitsi`). -/
def accept_demande (d : RendezVous) : RendezVous :=
  let d1 : RendezVous := { d with statut := Statut.planifie }
  if truthy d1.lien_jitsi then d1
  else { d1 with lien_jitsi := some (jitsiLink d1.resident_id d1.date_rdv) }

/-- One attempted outbound email. -/
inductive EmailKind
  | validation       -- send_validation_email
  | refusal          -- send_refusal_email
  | rdvConfirmation  -- email_service.send_rdv_confirmation
deriving DecidableEq, Repr

structure EmailAttempt where
  recipient : String
  kind : EmailKind
deriving DecidableEq, Repr

/-- Embedding of `refuse_demande` (found row, staff confirmed): sets `statut = "Refusé"`,
commits, and shows dialogs; the body contains no email call, so the list of
attempted notifications is empty. -/
def refuse_demande (d : RendezVous) : RendezVous × List EmailAttempt :=
  ({ d with statut := Statut.refuse }, [])

/-- Embedding of `cancel_rdv` (staff confirmed): `rdv.statut = "Annulé"; db.commit()`,
with no check of the current status. -/
def cancel_rdv (d : RendezVous) : RendezVous :=
  { d with statut := Statut.annule }

/-- Embedding of `finish_rdv` (staff confirmed): `rdv.statut = "Terminé"; db.commit()`,
with no check of the current status. -/
def finish_rdv (d : RendezVous) : RendezVous :=
  { d with statut := Statut.termine }

/-- Embedding of `start_call`: when `rdv.lien_jitsi` is truthy, opens the link in the
browser and sets `statut = "En cours"`; otherwise warns that no link exists
and leaves the row untouched.  The second component is the outcome surfaced
to the user: the opened URL, or the missing-resource failure. -/
def start_call (d : RendezVous) : RendezVous × Except ErrorKind String :=
  if truthy d.lien_jitsi then
    ({ d with statut := Statut.enCours }, Except.ok (d.lien_jitsi.getD ""))
  else
    (d, Except.error ErrorKind.missingResource)

/-- Embedding of `delete_rdv` (found row, staff confirmed): removes the row outright. -/
def delete_rdv (rdvs : List RendezVous) (rid : Nat) : List RendezVous :=
  rdvs.filter (fun d => d.id ≠ rid)

/-- A `familles` row as manipulated by the widget. -/
structure Famille where
  id : Nat
  resident_id : Nat
  nom : String
  prenom : String
  email : String
  actif : Bool
deriving DecidableEq, Repr

/-- Events observable at the store/notifier boundary, in program order. -/
inductive Ev
  | commitEv  -- db.commit() of the business transition
  | notifyEv  -- an email-sending attempt
deriving DecidableEq, Repr

/-- Embedding of `send_validation_email`: builds the HTML, calls
`email_service.send_email` inside a try/except that swallows every failure;
exactly one attempt is made, nothing is raised past the boundary. -/
def send_validation_email (f : Famille) : List EmailAttempt :=
  [{ recipient := f.email, kind := EmailKind.validation }]

/-- Embedding of `send_refusal_email`: same swallow-everything shape as
`send_validation_email`, with the refusal template. -/
def send_refusal_email (f : Famille) : List EmailAttempt :=
  [{ recipient := f.email, kind := EmailKind.refusal }]

/-- Embedding of `validate_inscription` (staff confirmed): fetch the row, set
`actif = True`, `db.commit()`, then attempt the validation email.
Returns (new familles table, attempted emails, boundary events in order). -/
def validate_inscription (familles : List Famille) (f : Famille) :
    List Famille × List EmailAttempt × List Ev :=
  let familles2 := familles.map (fun g => if g.id = f.id then { g with actif := true } else g)
  (familles2, send_validation_email f, [Ev.commitEv, Ev.notifyEv])

/-- Embedding of `refuse_inscription` (staff confirmed): attempt the refusal email FIRST
("Envoyer email de refus avant de supprimer"), then `db.delete(famille)`
and `db.commit()`. -/
def refuse_inscription (familles : List Famille) (f : Famille) :
    List Famille × List EmailAttempt × List Ev :=
  let att := send_refusal_email f
  (familles.filter (fun g => g.id ≠ f.id), att, [Ev.notifyEv, Ev.commitEv])

/-- Outcome dialog shown by `accept_demande`: always the success title
"✅ Demande acceptée"; `warnEmail` marks the "warning: email could not be sent"
variant. -/
structure DialogMsg where
  success : Bool
  warnEmail : Bool
deriving DecidableEq, Repr

/-- Embedding of `accept_demande` with its boundary behaviour: the status/link update is
committed, then, if the email service is configured, the confirmation email
is attempted inside try/except; an email failure only changes the dialog. -/
def accept_demande_full (d : RendezVous) (configured emailOk : Bool) :
    RendezVous × List Ev × DialogMsg :=
  let d2 := accept_demande d
  if configured then
    if emailOk then (d2, [Ev.commitEv, Ev.notifyEv], { success := true, warnEmail := false })
    else (d2, [Ev.commitEv, Ev.notifyEv], { success := true, warnEmail := true })
  else (d2, [Ev.commitEv], { success := true, warnEmail := false })

/-- Does no notification attempt precede the first commit in the trace? -/
def commitFirst : List Ev → Bool
  | Ev.notifyEv :: _ => false
  | _ => true

/-- A `residents` row. -/
structure Resident where
  id : Nat
  nom : String
  prenom : String
  chambre : String
  code_acces : String
  actif : Bool
deriving DecidableEq, Repr

/-- The local relational store visible to the widget. -/
structure Store where
  residents : List Resident
  familles : List Famille
  rdvs : List RendezVous
deriving DecidableEq, Repr

/-- Embedding of `deactivate_resident` (staff confirmed): fetch the resident by id and, if
found, set `actif = False` and commit; nothing else is touched. -/
def deactivate_resident (s : Store) (rid : Nat) : Store :=
  { s with residents :=
      s.residents.map (fun r => if r.id = rid then { r with actif := false } else r) }

/-- The desktop hard-delete path for a resident: delete all its
`rendez_vous` rows, then all its `familles` rows, then the resident itself
(lines 1299-1314). When the resident is not found, nothing happens. -/
def delete_resident (s : Store) (rid : Nat) : Store :=
  if s.residents.any (fun r => r.id = rid) then
    { residents := s.residents.filter (fun r => r.id ≠ rid),
      familles := s.familles.filter (fun f => f.resident_id ≠ rid),
      rdvs := s.rdvs.filter (fun d => d.resident_id ≠ rid) }
  else s

/-- A `disponibilites` row. -/
structure Dispo where
  jour_semaine : Nat
  heure_debut : String
  heure_fin : String
  creneau_type : String
  actif : Bool
deriving DecidableEq, Repr

/-- The two availability stores seen by `synchroniser_disponibilites`. -/
structure SyncState where
  localRows : List Dispo
  remoteRows : List Dispo
deriving DecidableEq, Repr

/-- Embedding of `synchroniser_disponibilites`: read the active local rows; if there are
none, warn and return without touching the remote store; otherwise
`DELETE FROM disponibilites` then reinsert every active local row. -/
def synchroniser_disponibilites (s : SyncState) : SyncState :=
  let dispos := s.localRows.filter (fun d => d.actif)
  if dispos = [] then s
  else { s with remoteRows := dispos }

/-- What the network does when `sync_delete_famille_cloud` posts. -/
inductive NetOutcome
  | httpOk              -- response.status_code == 200
  | httpErr (code : Nat)  -- any other status code
  | timedOut            -- requests timeout after the 5-second bound
  | connFailed          -- any other raised network error
deriving DecidableEq, Repr

/-- The console line printed by `sync_delete_famille_cloud`. -/
inductive LogKind
  | deletedOk        -- "✅ Famille #... supprimée du cloud"
  | warnStatus       -- "⚠️ Erreur cloud: ..."
  | warnUnreachable  -- "⚠️ Impossible de synchroniser avec le cloud: ..."
deriving DecidableEq, Repr

/-- Caller-observable outcome of `sync_delete_famille_cloud`. -/
structure SyncDeleteResult where
  surfaced : Option ErrorKind  -- error raised or returned to the caller
  logged : LogKind
  timeoutSeconds : Nat         -- the bound passed to requests.post
deriving DecidableEq, Repr

/-- Embedding of `sync_delete_famille_cloud`: posts the soft delete with `timeout=5`;
every failure, timeouts included, is caught by the blanket `except`, printed,
and absorbed ("Ne pas bloquer si le cloud est inaccessible"): the function
always returns normally with no error value. -/
def sync_delete_famille_cloud (net : NetOutcome) : SyncDeleteResult :=
  match net with
  | NetOutcome.httpOk => { surfaced := none, logged := LogKind.deletedOk, timeoutSeconds := 5 }
  | NetOutcome.httpErr _ => { surfaced := none, logged := LogKind.warnStatus, timeoutSeconds := 5 }
  | NetOutcome.timedOut => { surfaced := none, logged := LogKind.warnUnreachable, timeoutSeconds := 5 }
  | NetOutcome.connFailed => { surfaced := none, logged := LogKind.warnUnreachable, timeoutSeconds := 5 }

/-- A Python `datetime`: `wall` is the wall-clock reading in seconds and
`tzOffset` the attached `tzinfo` utcoffset in seconds (`none` = naive). -/
structure PyDatetime where
  wall : Int
  tzOffset : Option Int
deriving DecidableEq, Repr

/-- The absolute instant a datetime denotes, reading a naive value as UTC
(which is exactly how `utc_to_local` interprets it). -/
def instantOf (dt : PyDatetime) : Int :=
  match dt.tzOffset with
  | none => dt.wall
  | some o => dt.wall - o

/-- Python `utc_dt.replace(tzinfo=timezone.utc)`: keep the wall reading, attach the
zero offset. -/
def replaceTzUTC (dt : PyDatetime) : PyDatetime :=
  { dt with tzOffset := some 0 }

/-- Python `dt.astimezone()` on an aware datetime: convert to the local zone
(offset `localOff`) preserving the instant. -/
def astimezoneLocal (localOff : Int) (dt : PyDatetime) : PyDatetime :=
  { wall := instantOf dt + localOff, tzOffset := some localOff }

/-- Embedding of `utc_to_local`: `None` maps to `None`; a naive datetime first gets
`tzinfo=timezone.utc`, then both cases are converted with `astimezone()`. -/
def utc_to_local (localOff : Int) (utc_dt : Option PyDatetime) : Option PyDatetime :=
  match utc_dt with
  | none => none
  | some dt =>
    let dt2 := if dt.tzOffset = none then replaceTzUTC dt else dt
    some (astimezoneLocal localOff dt2)

/-! Concrete rows used by counterexamples and witnesses. -/

def dateA : DateRdv :=
  { year := 2025, month := 3, day := 10, hour := 14, minute := 0, second := 0 }

def rdvTermine : RendezVous :=
  { id := 41, resident_id := 5, famille_id := 9, date_rdv := dateA,
    duree_minutes := 30, statut := Statut.termine,
    lien_jitsi := some "https://meet.jit.si/MelyEHPAD-5-20250310140000" }

def rdvPlanifie : RendezVous :=
  { rdvTermine with id := 42, statut := Statut.planifie }

def rdvA : RendezVous :=
  { id := 1, resident_id := 5, famille_id := 9, date_rdv := dateA,
    duree_minutes := 30, statut := Statut.enAttente, lien_jitsi := none }

def rdvB : RendezVous :=
  { rdvA with id := 2, famille_id := 10 }

def familleA : Famille :=
  { id := 3, resident_id := 5, nom := "Durand", prenom := "Alice",
    email := "alice@example.org", actif := false }

/-- C1 counterexample: on an appointment already in the terminal status
Terminé, `cancel_rdv` succeeds and rewrites the status to Annulé; the status
is not left unchanged and no InvalidTransition failure occurs. -/
theorem C1_counterexample :
    rdvTermine.statut = Statut.termine ∧
    (cancel_rdv rdvTermine).statut = Statut.annule ∧
    Statut.annule ≠ Statut.termine :=
  ⟨rfl, rfl, by decide⟩

/-- C1 (amended): the transition operations never inspect the current
status: `cancel_rdv`, `finish_rdv`, `refuse_demande` and `accept_demande`
overwrite it unconditionally, and `start_call` overwrites it whenever the
call link is present, so a transition out of a terminal status succeeds and
changes the status; no InvalidTransition error exists on these paths. -/
theorem C1_transitions_unguarded (d : RendezVous) :
    cancel_rdv d = { d with statut := Statut.annule } ∧
    finish_rdv d = { d with statut := Statut.termine } ∧
    (refuse_demande d).1 = { d with statut := Statut.refuse } ∧
    (accept_demande d).statut = Statut.planifie ∧
    (truthy d.lien_jitsi = true →
      (start_call d).1 = { d with statut := Statut.enCours }) := by
  refine ⟨rfl, rfl, rfl, ?_, ?_⟩
  · unfold accept_demande
    dsimp only
    split <;> rfl
  · intro h
    simp [start_call, h]

/-- C1 witness: the amended theorem applied to a concrete Terminé
appointment whose link is present. -/
theorem C1_transitions_unguarded_witness :
    (start_call rdvTermine).1 = { rdvTermine with statut := Statut.enCours } :=
  (C1_transitions_unguarded rdvTermine).2.2.2.2 (by decide)

/-- C2: once the call-room URL is non-empty, approval keeps it unchanged,
approving twice keeps it unchanged, and none of the other operations
(`refuse_demande`, `cancel_rdv`, `finish_rdv`, `start_call`) ever writes a
different URL. -/
theorem C2_link_stable (d : RendezVous) (h : truthy d.lien_jitsi = true) :
    (accept_demande d).lien_jitsi = d.lien_jitsi ∧
    (accept_demande (accept_demande d)).lien_jitsi = d.lien_jitsi ∧
    (refuse_demande d).1.lien_jitsi = d.lien_jitsi ∧
    (cancel_rdv d).lien_jitsi = d.lien_jitsi ∧
    (finish_rdv d).lien_jitsi = d.lien_jitsi ∧
    (start_call d).1.lien_jitsi = d.lien_jitsi := by
  refine ⟨?_, ?_, rfl, rfl, rfl, ?_⟩
  · simp [accept_demande, h]
  · simp [accept_demande, h]
  · simp [start_call, h]

/-- C2 witness: the theorem applied to a concrete scheduled appointment
holding a link. -/
theorem C2_link_stable_witness :
    (accept_demande rdvPlanifie).lien_jitsi = rdvPlanifie.lien_jitsi ∧
    (accept_demande (accept_demande rdvPlanifie)).lien_jitsi = rdvPlanifie.lien_jitsi :=
  ⟨(C2_link_stable rdvPlanifie (by decide)).1,
   (C2_link_stable rdvPlanifie (by decide)).2.1⟩

/-- C3 counterexample: two distinct pending appointments for the same
resident at the same requested second receive the SAME call-room URL on
approval, so the allocated URLs are not distinct and carry no randomness. -/
theorem C3_counterexample :
    rdvA.id ≠ rdvB.id ∧
    (accept_demande rdvA).lien_jitsi = (accept_demande rdvB).lien_jitsi ∧
    (accept_demande rdvA).lien_jitsi ≠ none :=
  ⟨by decide, rfl, by decide⟩

/-- C3 (amended): the URL allocated at approval has the shape
base/MelyEHPAD-(resident id)-(strftime of the scheduled time); it is a
deterministic function of the resident id and the scheduled time, with no
random token, so two appointments agreeing on both collide. -/
theorem C3_link_deterministic (d : RendezVous) (h : truthy d.lien_jitsi = false) :
    (accept_demande d).lien_jitsi =
      some ("https://meet.jit.si/MelyEHPAD-" ++ toString d.resident_id ++ "-"
            ++ strftimeYmdHMS d.date_rdv) ∧
    (∀ e : RendezVous, truthy e.lien_jitsi = false →
      e.resident_id = d.resident_id → e.date_rdv = d.date_rdv →
      (accept_demande e).lien_jitsi = (accept_demande d).lien_jitsi) := by
  constructor
  · simp [accept_demande, h, jitsiLink]
  · intro e he h1 h2
    simp [accept_demande, h, he, jitsiLink, h1, h2]

/-- C3 witness: the amended theorem applied to the two concrete colliding
appointments. -/
theorem C3_link_deterministic_witness :
    (accept_demande rdvB).lien_jitsi = (accept_demande rdvA).lien_jitsi :=
  (C3_link_deterministic rdvA (by decide)).2 rdvB (by decide) (by decide) (by decide)

/-- C4: `start_call` on an appointment without a call link fails with the
missing-resource error and leaves the row unchanged; with a link present on
a Planifié or Confirmé appointment it opens exactly that link and moves the
status to En cours. -/
theorem C4_start_call_spec (d : RendezVous) :
    (truthy d.lien_jitsi = false →
      start_call d = (d, Except.error ErrorKind.missingResource)) ∧
    (truthy d.lien_jitsi = true →
      (d.statut = Statut.planifie ∨ d.statut = Statut.confirme) →
      start_call d =
        ({ d with statut := Statut.enCours }, Except.ok (d.lien_jitsi.getD ""))) := by
  constructor
  · intro h; simp [start_call, h]
  · intro h _; simp [start_call, h]

/-- C4 witness: the theorem applied to a linkless pending appointment and a
linked scheduled one. -/
theorem C4_start_call_spec_witness :
    start_call rdvA = (rdvA, Except.error ErrorKind.missingResource) ∧
    start_call rdvPlanifie =
      ({ rdvPlanifie with statut := Statut.enCours },
       Except.ok (rdvPlanifie.lien_jitsi.getD "")) :=
  ⟨(C4_start_call_spec rdvA).1 (by decide),
   (C4_start_call_spec rdvPlanifie).2 (by decide) (Or.inl rfl)⟩

/-- C5 counterexample: refusing a concrete pending request commits the
Refusé status but attempts no notification at all — the list of outbound
email attempts of `refuse_demande` is empty. -/
theorem C5_counterexample :
    (refuse_demande rdvA).1.statut = Statut.refuse ∧
    (refuse_demande rdvA).2 = [] :=
  ⟨rfl, rfl⟩

/-- C5 (amended): `refuse_demande` sets the status to Refusé, leaves every
other field (notably the call link) unchanged, and fires no rejection email;
the staff dialog instead suggests contacting the family manually. -/
theorem C5_refuse_no_email (d : RendezVous) :
    (refuse_demande d).1 = { d with statut := Statut.refuse } ∧
    (refuse_demande d).1.lien_jitsi = d.lien_jitsi ∧
    (refuse_demande d).2 = [] :=
  ⟨rfl, rfl, rfl⟩

/-- C6 counterexample: refusing a concrete pending registration attempts
its notification email BEFORE the deleting commit — the event trace of
`refuse_inscription` starts with the notification, so the business state
change is not committed before the notification attempt. -/
theorem C6_counterexample :
    (refuse_inscription [familleA] familleA).2.1 ≠ [] ∧
    commitFirst (refuse_inscription [familleA] familleA).2.2 = false :=
  ⟨by decide, rfl⟩

/-- C6 (amended): approval of a request and validation of a registration
commit before attempting their notification, and an email failure changes
only the dialog, never the committed row; refusal of a registration instead
attempts its notification before the deleting commit (the notifier swallows
its own failures, so the deletion still commits). -/
theorem C6_commit_order (fs : List Famille) (f : Famille) (d : RendezVous)
    (cfg ok1 ok2 : Bool) :
    commitFirst (validate_inscription fs f).2.2 = true ∧
    (validate_inscription fs f).2.1 =
      [{ recipient := f.email, kind := EmailKind.validation }] ∧
    commitFirst (refuse_inscription fs f).2.2 = false ∧
    (refuse_inscription fs f).1 = fs.filter (fun g => g.id ≠ f.id) ∧
    commitFirst (accept_demande_full d cfg ok1).2.1 = true ∧
    (accept_demande_full d cfg ok1).1 = (accept_demande_full d cfg ok2).1 ∧
    (accept_demande_full d cfg ok1).2.2.success = true := by
  refine ⟨rfl, rfl, rfl, rfl, ?_, ?_, ?_⟩ <;>
    cases cfg <;> cases ok1 <;> cases ok2 <;> rfl

/-- C7: the availability sync is a full replace — whenever there is at least
one active local row (the success path), the remote table afterwards equals
exactly the active local rows; the local table is never written, and running
the sync twice equals running it once. -/
theorem C7_sync_full_replace (s : SyncState) :
    (s.localRows.filter (fun d => d.actif) ≠ [] →
      (synchroniser_disponibilites s).remoteRows = s.localRows.filter (fun d => d.actif)) ∧
    (synchroniser_disponibilites s).localRows = s.localRows ∧
    synchroniser_disponibilites (synchroniser_disponibilites s) =
      synchroniser_disponibilites s := by
  have hs : ∀ t : SyncState, t.localRows.filter (fun d => d.actif) ≠ [] →
      synchroniser_disponibilites t =
        { t with remoteRows := t.localRows.filter (fun d => d.actif) } := by
    intro t ht
    unfold synchroniser_disponibilites
    simp [ht]
  by_cases h : s.localRows.filter (fun d => d.actif) = []
  · have he : synchroniser_disponibilites s = s := by
      unfold synchroniser_disponibilites
      simp [h]
    exact ⟨fun hc => absurd h hc, by rw [he], by rw [he, he]⟩
  · have h1 := hs s h
    refine ⟨fun _ => by rw [h1], by rw [h1], ?_⟩
    rw [h1]
    rw [hs { s with remoteRows := s.localRows.filter (fun d => d.actif) } (by simpa using h)]

/-- Concrete availability rows for the C7 witness. -/
def dispoA : Dispo :=
  { jour_semaine := 0, heure_debut := "09:00", heure_fin := "12:00",
    creneau_type := "disponible", actif := true }

def syncDemo : SyncState :=
  { localRows := [dispoA, { dispoA with jour_semaine := 2, actif := false }],
    remoteRows := [{ dispoA with jour_semaine := 5 }] }

/-- C7 witness: the theorem applied to a concrete pair of stores. -/
theorem C7_sync_full_replace_witness :
    (synchroniser_disponibilites syncDemo).remoteRows = [dispoA] ∧
    synchroniser_disponibilites (synchroniser_disponibilites syncDemo) =
      synchroniser_disponibilites syncDemo :=
  ⟨((C7_sync_full_replace syncDemo).1 (by decide)).trans (by decide),
   (C7_sync_full_replace syncDemo).2.2⟩

/-- C8: soft-deleting a resident touches only that resident, flipping its
actif flag to false: the familles and rendez-vous tables are untouched and
every other resident row survives unchanged; the desktop hard-delete path
instead removes the resident together with every linked famille and
rendez-vous row, and nothing else. -/
theorem C8_soft_delete_frame (s : Store) (rid : Nat) :
    (deactivate_resident s rid).familles = s.familles ∧
    (deactivate_resident s rid).rdvs = s.rdvs ∧
    (∀ r, r ∈ s.residents → r.id ≠ rid → r ∈ (deactivate_resident s rid).residents) ∧
    (∀ r, r ∈ (deactivate_resident s rid).residents → r.id = rid → r.actif = false) ∧
    (s.residents.any (fun r => r.id = rid) = true →
      (∀ f, f ∈ (delete_resident s rid).familles → f.resident_id ≠ rid) ∧
      (∀ v, v ∈ (delete_resident s rid).rdvs → v.resident_id ≠ rid) ∧
      (∀ r, r ∈ (delete_resident s rid).residents → r.id ≠ rid) ∧
      (∀ f, f ∈ s.familles → f.resident_id ≠ rid →
        f ∈ (delete_resident s rid).familles) ∧
      (∀ v, v ∈ s.rdvs → v.resident_id ≠ rid →
        v ∈ (delete_resident s rid).rdvs)) := by
  refine ⟨rfl, rfl, ?_, ?_, ?_⟩
  · intro r hr hne
    unfold deactivate_resident
    dsimp only
    exact List.mem_map.mpr ⟨r, hr, by simp [hne]⟩
  · intro r hr hid
    unfold deactivate_resident at hr
    dsimp only at hr
    obtain ⟨a, ha, hfa⟩ := List.mem_map.mp hr
    by_cases h : a.id = rid
    · subst hfa; simp [h]
    · subst hfa
      simp only [if_neg h] at hid
      exact absurd hid h
  · intro hany
    unfold delete_resident
    simp only [hany, if_pos]
    refine ⟨?_, ?_, ?_, ?_, ?_⟩
    · intro f hf
      simpa using (List.mem_filter.mp hf).2
    · intro v hv
      simpa using (List.mem_filter.mp hv).2
    · intro r hr
      simpa using (List.mem_filter.mp hr).2
    · intro f hf hne
      exact List.mem_filter.mpr ⟨hf, by simpa using hne⟩
    · intro v hv hne
      exact List.mem_filter.mpr ⟨hv, by simpa using hne⟩

/-- Concrete store for the C8 witness: one resident, one linked famille,
one famille of another resident, one linked rendez-vous. -/
def resA : Resident :=
  { id := 1, nom := "Martin", prenom := "Paul", chambre := "12",
    code_acces := "AB12", actif := true }

def familleB : Famille := { familleA with id := 4, resident_id := 1 }

def familleC : Famille := { familleA with id := 7, resident_id := 2 }

def storeDemo : Store :=
  { residents := [resA],
    familles := [familleB, familleC],
    rdvs := [{ rdvA with resident_id := 1 }] }

/-- C8 witness: the theorem applied to the concrete store, for both the
soft-delete frame and the hard-delete cascade. -/
theorem C8_soft_delete_frame_witness :
    (deactivate_resident storeDemo 1).familles = storeDemo.familles ∧
    (deactivate_resident storeDemo 1).rdvs = storeDemo.rdvs ∧
    familleC ∈ (delete_resident storeDemo 1).familles := by
  have h := C8_soft_delete_frame storeDemo 1
  exact ⟨h.1, h.2.1, (h.2.2.2.2 (by decide)).2.2.2.1 familleC (by decide) (by decide)⟩

/-- C9 counterexample: when the posted delete times out, the embedded
`sync_delete_famille_cloud` surfaces no error at all to its caller — the
timeout is absorbed, logged only as a console warning. -/
theorem C9_counterexample :
    (sync_delete_famille_cloud NetOutcome.timedOut).surfaced = none ∧
    (sync_delete_famille_cloud NetOutcome.timedOut).logged = LogKind.warnUnreachable :=
  ⟨rfl, rfl⟩

/-- C9 (amended): the network call does use a bounded 5-second timeout, but
the swallow-everything policy applies here too: whatever the network does —
success, HTTP error, timeout, connection failure — the caller receives no
error, and a timeout is merely printed as an unreachable-cloud warning. -/
theorem C9_timeout_swallowed (net : NetOutcome) :
    (sync_delete_famille_cloud net).timeoutSeconds = 5 ∧
    (sync_delete_famille_cloud net).surfaced = none ∧
    (net = NetOutcome.timedOut →
      (sync_delete_famille_cloud net).logged = LogKind.warnUnreachable) := by
  cases net <;> refine ⟨rfl, rfl, ?_⟩ <;> intro h <;>
    first
      | rfl
      | exact absurd h (by simp)

/-- C9 witness: the amended theorem applied to the timeout outcome. -/
theorem C9_timeout_swallowed_witness :
    (sync_delete_famille_cloud NetOutcome.timedOut).logged = LogKind.warnUnreachable ∧
    (sync_delete_famille_cloud NetOutcome.timedOut).timeoutSeconds = 5 :=
  ⟨(C9_timeout_swallowed NetOutcome.timedOut).2.2 rfl,
   (C9_timeout_swallowed NetOutcome.timedOut).1⟩

/-- C10: `utc_to_local` is total on optional datetimes — None maps to None,
and any other input is sent to the local zone with the represented instant
preserved, a naive input being read as UTC. -/
theorem C10_utc_to_local_total (L : Int) (dt : PyDatetime) :
    utc_to_local L none = none ∧
    utc_to_local L (some dt) = some { wall := instantOf dt + L, tzOffset := some L } ∧
    instantOf { wall := instantOf dt + L, tzOffset := some L } = instantOf dt := by
  refine ⟨rfl, ?_, ?_⟩
  · unfold utc_to_local astimezoneLocal replaceTzUTC instantOf
    cases h : dt.tzOffset <;> simp [h]
  · unfold instantOf
    dsimp only
    omega
